import Mathlib

/-!
Shallow embedding of the SHADOW-0602/Backend middleware helpers and the
database-connection cache, with theorems checking the natural-language
specification against the code.

Sources embedded:
- `src/unnamed/part_000` : asyncHandler / withDatabase wrappers
- `src/unnamed/part_001` and `src/utils/dbConnection.js` (first half):
  connectToDatabase / closeConnection / isConnected connection cache
- `src/utils/dbConnection.js` (second half): setCacheHeaders, parseSize,
  requestSizeLimiter, batchProcess, withTimeout

JavaScript idioms are modelled as follows: a thrown `Error` is a `JsError`
value carrying its `message`; an `async` function that may throw is an
`Except JsError` value; the mutable module-level `cachedConnection` and the
driver's `mongoose.connection.readyState` form an explicit state record
threaded through the functions; response objects are explicit records of
the headers set and the body sent.
-/

/-- A JavaScript `Error` value, reduced to the `message` the code reads. -/
structure JsError where
  message : String
deriving DecidableEq, Repr

/-- The JSON error envelope `{success, error, message}` sent by `withDatabase`
(`src/unnamed/part_000` lines 32-36). -/
structure DbErrEnvelope where
  success : Bool
  error : String
  message : String
deriving DecidableEq, Repr

/-- Result of running the handler returned by `withDatabase`: either the
wrapped handler's return value, or a `res.status(status).json(body)` response. -/
inductive WDResult (α : Type) where
  | handlerValue : α → WDResult α
  | responded : Nat → DbErrEnvelope → WDResult α
deriving DecidableEq, Repr

/-- `withDatabase(fn)` from `src/unnamed/part_000` lines 24-39.
The awaited `connectToDatabase()` call is modelled by its outcome
`connectResult`; the wrapped handler `fn` is modelled by the outcome it
would produce if invoked.  The returned `Bool` records whether `fn` was
invoked at all (in the source, `fn` is only reached after the connect
await succeeds).  Any error caught produces
`res.status(500).json({success:false, error:'Database operation failed',
message: error.message})`. -/
def withDatabase {α : Type} (connectResult : Except JsError Unit)
    (fn : Unit → Except JsError α) : WDResult α × Bool :=
  match connectResult with
  | .error e => (.responded 500 ⟨false, "Database operation failed", e.message⟩, false)
  | .ok _ =>
    match fn () with
    | .error e => (.responded 500 ⟨false, "Database operation failed", e.message⟩, true)
    | .ok a => (.handlerValue a, true)

/-- An Express-style response: the list of headers set so far.
`res.set(k, v)` replaces any previously set header of the same name. -/
structure HttpRes where
  headers : List (String × String)
deriving DecidableEq, Repr

/-- `res.set(field, value)`: replace any existing header named `k`, add `(k, v)`. -/
def HttpRes.set (res : HttpRes) (k v : String) : HttpRes :=
  { headers := res.headers.filter (fun p => p.1 ≠ k) ++ [(k, v)] }

/-- The static-asset suffixes of the regex
`/\.(js|css|png|jpg|jpeg|gif|ico|svg)$/` in `setCacheHeaders`
(`src/utils/dbConnection.js` line 152).  The regex is unanchored at the
left and anchored at the right, so it matches exactly the paths ending in
one of these suffixes. -/
def staticAssetSuffixes : List (List Char) :=
  [".js".data, ".css".data, ".png".data, ".jpg".data, ".jpeg".data,
   ".gif".data, ".ico".data, ".svg".data]

/-- `req.path.match(/\.(js|css|png|jpg|jpeg|gif|ico|svg)$/)` as a Boolean. -/
def matchesStaticAsset (path : String) : Bool :=
  staticAssetSuffixes.any (fun suf => suf.isSuffixOf path.data)

/-- `req.path.startsWith('/api/')`. -/
def pathIsApi (path : String) : Bool :=
  "/api/".data.isPrefixOf path.data

/-- `setCacheHeaders(req, res, next)` from `src/utils/dbConnection.js`
lines 150-161, returning the updated response and the number of times
`next` was called. -/
def setCacheHeaders (path : String) (res : HttpRes) : HttpRes × Nat :=
  if matchesStaticAsset path then
    (res.set "Cache-Control" "public, max-age=3600", 1)
  else if pathIsApi path then
    (res.set "Cache-Control" "public, max-age=300", 1)
  else
    (res, 1)

/-- Numeric value of a list of decimal digit characters. -/
def digitsVal (ds : List Char) : Nat :=
  ds.foldl (fun acc c => 10 * acc + (c.toNat - '0'.toNat)) 0

/-- The JavaScript `\s` character class (ECMAScript WhiteSpace and
LineTerminator characters), as tested by the `\s*` in `parseSize`'s regex. -/
def isJsWhitespace (c : Char) : Bool :=
  c = ' ' ∨ c = '\t' ∨ c = '\n' ∨ c = '\r' ∨ c.toNat = 11 ∨ c.toNat = 12 ∨
  c.toNat = 0xa0 ∨ c.toNat = 0x1680 ∨ (0x2000 ≤ c.toNat ∧ c.toNat ≤ 0x200a) ∨
  c.toNat = 0x2028 ∨ c.toNat = 0x2029 ∨ c.toNat = 0x202f ∨ c.toNat = 0x205f ∨
  c.toNat = 0x3000 ∨ c.toNat = 0xfeff

/-- Match the leading `(\d+(?:\.\d+)?)` group of `parseSize`'s regex against
a character list.  Returns the matched number as an exact fraction
`numerator / denominator` (denominator a power of ten) together with the
unconsumed rest, or `none` when no digits are present.  When a `'.'`
follows the integer digits but no digit follows the `'.'`, the optional
fraction group fails and the `'.'` is left unconsumed (as regex
backtracking would leave it), making the overall anchored match fail
later. -/
def matchNumberPart (cs : List Char) : Option (Nat × Nat × List Char) :=
  let (ds, rest) := cs.span Char.isDigit
  if ds.isEmpty then none
  else
    match rest with
    | '.' :: cs2 =>
      let (fs, rest2) := cs2.span Char.isDigit
      if fs.isEmpty then some (digitsVal ds, 1, rest)
      else some (digitsVal ds * 10 ^ fs.length + digitsVal fs, 10 ^ fs.length, rest2)
    | _ => some (digitsVal ds, 1, rest)

/-- The unit table `{b:1, kb:1024, mb:1024*1024, gb:1024*1024*1024}` of
`parseSize` (`src/utils/dbConnection.js` lines 209-214), applied to the
optional `(b|kb|mb|gb)?` group: the whole remaining input must be one of
the unit spellings or empty (absent unit defaults to `'b'`). -/
def unitMultiplier : List Char → Option Nat
  | [] => some 1
  | ['b'] => some 1
  | ['k', 'b'] => some 1024
  | ['m', 'b'] => some (1024 * 1024)
  | ['g', 'b'] => some (1024 * 1024 * 1024)
  | _ => none

/-- `size.toLowerCase().match(/^(\d+(?:\.\d+)?)\s*(b|kb|mb|gb)?$/)` from
`parseSize`: lower-case the input, match the number group, skip `\s*`,
and require the rest to be an admissible unit.  Returns the matched value
as an exact fraction together with the unit's byte multiplier. -/
def sizeMatch (size : String) : Option (Nat × Nat × Nat) :=
  match matchNumberPart (size.data.map Char.toLower) with
  | none => none
  | some (num, den, rest) =>
    match unitMultiplier (rest.dropWhile isJsWhitespace) with
    | none => none
    | some m => some (num, den, m)

/-- `parseSize(size)` from `src/utils/dbConnection.js` lines 208-223:
`0` when the regex does not match, otherwise
`Math.floor(value * units[unit])`, computed here as the exact rational
floor `num * m / den` (the numeric value is modelled as an exact
rational; the concrete values the spec fixes are exactly representable
doubles, where JavaScript arithmetic agrees with the exact one). -/
def parseSize (size : String) : Nat :=
  match sizeMatch size with
  | none => 0
  | some (num, den, m) => num * m / den

/-- The JSON body `{success, error, maxSize}` sent by `requestSizeLimiter`
(`src/utils/dbConnection.js` lines 194-198). -/
structure SizeErrEnvelope where
  success : Bool
  error : String
  maxSize : String
deriving DecidableEq, Repr

/-- Result of running the middleware returned by `requestSizeLimiter`: an
optional `(status, body)` response sent, and the number of `next` calls. -/
structure LimiterResult where
  response : Option (Nat × SizeErrEnvelope)
  nextCalls : Nat
deriving DecidableEq, Repr

/-- `requestSizeLimiter(maxSize)` from `src/utils/dbConnection.js` lines
188-203, applied to a request.  `contentLength` is the result of
`parseInt(req.headers['content-length'])`: `none` models a missing header
or a `NaN` parse (both falsy), `some n` a numeric parse.  The source's
truthiness test `contentLength && contentLength > maxBytes` makes `0`
falsy, hence the explicit `n ≠ 0` conjunct. -/
def requestSizeLimiter (maxSize : String) (contentLength : Option Int) : LimiterResult :=
  let maxBytes : Int := parseSize maxSize
  match contentLength with
  | none => ⟨none, 1⟩
  | some n =>
    if n ≠ 0 ∧ n > maxBytes then
      ⟨some (413, ⟨false, "Request entity too large", maxSize⟩), 0⟩
    else
      ⟨none, 1⟩

/-- Outcome of the `Promise.race` in `withTimeout`: either the monitored
operation's resolution value or a rejection with the timeout error's
message. -/
inductive RaceOutcome (α : Type) where
  | resolved : α → RaceOutcome α
  | rejected : String → RaceOutcome α
deriving DecidableEq, Repr

/-- `Promise.race` of two promises, each modelled by the instant (in ms)
at which it settles and its settlement: the earlier-settling promise
wins; on a tie the first-listed promise (registered first) wins. -/
def promiseRace {α : Type} (a b : Nat × α) : α :=
  if a.1 ≤ b.1 then a.2 else b.2

/-- The message of the error built at `src/utils/dbConnection.js` line 288:
`Operation timed out after ${timeoutMs}ms`. -/
def timeoutMessage (timeoutMs : Nat) : String :=
  "Operation timed out after " ++ toString timeoutMs ++ "ms"

/-- `withTimeout(promise, timeoutMs)` from `src/utils/dbConnection.js`
lines 283-292: the race between the monitored operation — modelled by the
instant `opTime` at which it resolves and its value `opResult` — and a
timer that rejects with the timeout error at instant `timeoutMs`. -/
def withTimeout {α : Type} (opTime : Nat) (opResult : α) (timeoutMs : Nat) : RaceOutcome α :=
  promiseRace (opTime, RaceOutcome.resolved opResult)
    (timeoutMs, RaceOutcome.rejected (timeoutMessage timeoutMs))

/-- Loop state of `batchProcess` (`src/utils/dbConnection.js` lines
238-250): the loop index `i` and the `results` accumulated so far. -/
structure BPState (β : Type) where
  i : Nat
  results : List β
deriving DecidableEq, Repr

/-- One iteration of the `batchProcess` loop body: take
`items.slice(i, i + batchSize)`, process each item (the `Promise.all`
resolves to the processed values in the batch's index order, whatever the
per-item completion timing), push the batch results, and advance `i` by
`batchSize`. -/
def bpStep {α β : Type} (items : List α) (batchSize : Nat) (processor : α → β)
    (s : BPState β) : BPState β :=
  { i := s.i + batchSize,
    results := s.results ++ ((items.drop s.i).take batchSize).map processor }

/-- Run the `batchProcess` loop for at most `fuel` iterations: iterate
`bpStep` while the guard `i < items.length` holds. -/
def bpRun {α β : Type} (items : List α) (batchSize : Nat) (processor : α → β) :
    Nat → BPState β → BPState β
  | 0, s => s
  | fuel + 1, s =>
    if s.i < items.length then
      bpRun items batchSize processor fuel (bpStep items batchSize processor s)
    else s

/-- `batchProcess(items, batchSize, processor)`: run the loop from
`i = 0`, `results = []`.  With `batchSize ≥ 1` the loop needs at most
`items.length` iterations, so that much fuel is exact; the `fuel`
parametrisation of `bpRun` exists only to express (non-)termination of
the source's unguarded loop. -/
def batchProcess {α β : Type} (items : List α) (batchSize : Nat) (processor : α → β) : List β :=
  (bpRun items batchSize processor items.length ⟨0, []⟩).results

/-- State of the connection-cache module (`src/unnamed/part_001` /
`src/utils/dbConnection.js` lines 1-107): the module-level
`cachedConnection` (connection handles are abstracted to numeric ids),
the driver's `mongoose.connection.readyState`, and whether the three
`mongoose.connection.on(...)` observers of lines 39-51 have been
registered. -/
structure DbState where
  cachedConnection : Option Nat
  readyState : Nat
  observersRegistered : Bool
deriving DecidableEq, Repr

/-- The driver events observed by the cache module. -/
inductive DbEvent where
  | errorEvt
  | disconnected
  | reconnected
deriving DecidableEq, Repr

/-- The driver-side state transition accompanying each event (mongoose
semantics, not code under `src/`): the `disconnected` event fires when the
connection's readyState becomes 0, `reconnected` when it returns to 1,
and an `error` event by itself does not change the readyState. -/
def driverEventState (st : DbState) : DbEvent → DbState
  | .errorEvt => st
  | .disconnected => { st with readyState := 0 }
  | .reconnected => { st with readyState := 1 }

/-- The registered observer callbacks of `src/utils/dbConnection.js`
lines 39-51: the `error` and `disconnected` handlers set
`cachedConnection = null`; the `reconnected` handler only logs. -/
def observerAction (st : DbState) : DbEvent → DbState
  | .errorEvt => { st with cachedConnection := none }
  | .disconnected => { st with cachedConnection := none }
  | .reconnected => st

/-- Delivery of a driver event: the driver updates its readyState, then
the observer callbacks run — provided they have been registered by a
previous successful `connectToDatabase()`. -/
def handleEvent (st : DbState) (e : DbEvent) : DbState :=
  let st1 := driverEventState st e
  if st1.observersRegistered then observerAction st1 e else st1

/-- Outcome of a `connectToDatabase()` call. -/
inductive ConnectOutcome where
  | reusedCache : Nat → ConnectOutcome
  | established : Nat → ConnectOutcome
  | failed : JsError → ConnectOutcome
deriving DecidableEq, Repr

/-- The `try` block of `connectToDatabase` from line 17 on: the awaited
`mongoose.connect(...)` is modelled by its outcome `driver` — on success
a fresh handle (and a driver readyState of 1), on failure the thrown
error.  Success stores the handle in `cachedConnection` and registers the
three event observers; the `catch` block resets `cachedConnection = null`
and re-throws. -/
def establishConnection (st : DbState) (driver : Except JsError Nat) :
    DbState × ConnectOutcome :=
  match driver with
  | .ok c =>
    ({ cachedConnection := some c, readyState := 1, observersRegistered := true },
     .established c)
  | .error e => ({ st with cachedConnection := none }, .failed e)

/-- `connectToDatabase()` from `src/utils/dbConnection.js` lines 10-59:
return the cached connection when `cachedConnection` is non-null (truthy)
and `mongoose.connection.readyState === 1`; otherwise attempt a fresh
establishment. -/
def connectToDatabase (st : DbState) (driver : Except JsError Nat) :
    DbState × ConnectOutcome :=
  match st.cachedConnection with
  | some c =>
    if st.readyState = 1 then (st, .reusedCache c)
    else establishConnection st driver
  | none => establishConnection st driver

/-- `isConnected()` from `src/utils/dbConnection.js` lines 79-81:
`mongoose.connection.readyState === 1`. -/
def isConnected (st : DbState) : Bool :=
  st.readyState = 1

/-- `closeConnection()` from `src/utils/dbConnection.js` lines 64-74.
The awaited `mongoose.connection.close()` is modelled by its outcome
`teardown`.  When no connection is cached, nothing happens.  When
teardown succeeds, the driver's readyState drops to 0 and
`cachedConnection = null` runs.  When teardown throws, the `catch` block
only logs — the error is swallowed, and the `cachedConnection = null`
assignment (placed after the await) never runs.  The `Except` return
makes the absence of propagated errors a provable fact: every branch is
`.ok`. -/
def closeConnection (st : DbState) (teardown : Except JsError Unit) :
    Except JsError DbState :=
  match st.cachedConnection with
  | none => .ok st
  | some _ =>
    match teardown with
    | .ok _ => .ok { st with cachedConnection := none, readyState := 0 }
    | .error _ => .ok st

/-- Looking up a header just written by `HttpRes.set` yields its value. -/
theorem lookup_filter_append (k v : String) :
    ∀ l : List (String × String),
      ((l.filter (fun p => p.1 ≠ k)) ++ [(k, v)]).lookup k = some v
  | [] => by simp [List.lookup]
  | (a, b) :: t => by
    by_cases h : a = k
    · simpa [List.filter_cons, h] using lookup_filter_append k v t
    · have hba : (k == a) = false := beq_eq_false_iff_ne.mpr (Ne.symm h)
      simpa [List.filter_cons, h, List.lookup, hba] using lookup_filter_append k v t

/-- `HttpRes.set` makes the header it writes visible to lookup. -/
theorem lookup_set (res : HttpRes) (k v : String) :
    ((res.set k v).headers).lookup k = some v :=
  lookup_filter_append k v res.headers

/-- With a positive batch size and fuel at least the number of remaining
items, the `batchProcess` loop appends the processed tail of the list to
the accumulated results. -/
theorem bpRun_results {α β : Type} (items : List α) (bs : Nat) (p : α → β)
    (hbs : 1 ≤ bs) :
    ∀ (fuel i : Nat) (acc : List β), items.length - i ≤ fuel →
      (bpRun items bs p fuel ⟨i, acc⟩).results = acc ++ (items.drop i).map p := by
  intro fuel
  induction fuel with
  | zero =>
    intro i acc h
    have hle : items.length ≤ i := by omega
    simp [bpRun, List.drop_eq_nil_of_le hle]
  | succ fuel ih =>
    intro i acc h
    by_cases hi : i < items.length
    · rw [bpRun, if_pos hi, bpStep]
      rw [ih (i + bs) (acc ++ ((items.drop i).take bs).map p) (by omega)]
      rw [List.append_assoc, ← List.map_append]
      have hdd : items.drop (i + bs) = (items.drop i).drop bs := by
        rw [List.drop_drop, Nat.add_comm]
      rw [hdd, List.take_append_drop]
    · have hle : items.length ≤ i := by omega
      simp [bpRun, hi, List.drop_eq_nil_of_le hle]

/-- With a positive batch size and fuel at least the number of remaining
items, the `batchProcess` loop index reaches the list length: the loop
guard `i < items.length` fails and the loop exits. -/
theorem bpRun_exits {α β : Type} (items : List α) (bs : Nat) (p : α → β)
    (hbs : 1 ≤ bs) :
    ∀ (fuel i : Nat) (acc : List β), items.length - i ≤ fuel →
      items.length ≤ (bpRun items bs p fuel ⟨i, acc⟩).i := by
  intro fuel
  induction fuel with
  | zero =>
    intro i acc h
    simpa [bpRun] using by omega
  | succ fuel ih =>
    intro i acc h
    by_cases hi : i < items.length
    · rw [bpRun, if_pos hi, bpStep]
      exact ih (i + bs) _ (by omega)
    · simpa [bpRun, hi] using by omega

/-- With batch size `0`, the `batchProcess` loop index stays at `0`
forever: the `i += batchSize` update makes no progress. -/
theorem bpRun_zero_stuck {α β : Type} (items : List α) (p : α → β) :
    ∀ (fuel : Nat) (acc : List β), (bpRun items 0 p fuel ⟨0, acc⟩).i = 0 := by
  intro fuel
  induction fuel with
  | zero => intro acc; rfl
  | succ fuel ih =>
    intro acc
    by_cases h : 0 < items.length
    · rw [bpRun, if_pos h]
      exact ih _
    · rw [bpRun, if_neg h]

/-- `establishConnection` never reports a cache hit. -/
theorem establish_ne_reused (st : DbState) (driver : Except JsError Nat) (k : Nat) :
    (establishConnection st driver).2 ≠ ConnectOutcome.reusedCache k := by
  cases driver <;> simp [establishConnection]

/-- Claim C1: for every wrapped handler `fn` and every request, if awaiting
`connectToDatabase()` or awaiting `fn` throws an error `e`, the handler
returned by `withDatabase(fn)` responds with HTTP 500 and the JSON body
`{success: false, error: "Database operation failed", message: e.message}`;
when the connect await throws, `fn` is never invoked; when `fn` throws
`Error("boom")` the response `message` is `"boom"` and `fn`'s success path
is never reached. -/
theorem C1_withDatabase_error_path {α : Type} (fn : Unit → Except JsError α)
    (e : JsError) :
    (withDatabase (.error e) fn =
      (.responded 500 ⟨false, "Database operation failed", e.message⟩, false)) ∧
    (fn () = .error e →
      withDatabase (.ok ()) fn =
        (.responded 500 ⟨false, "Database operation failed", e.message⟩, true)) ∧
    (fn () = .error ⟨"boom"⟩ →
      (withDatabase (.ok ()) fn).1 =
        .responded 500 ⟨false, "Database operation failed", "boom"⟩ ∧
      ∀ a : α, (withDatabase (.ok ()) fn).1 ≠ .handlerValue a) := by
  refine ⟨rfl, fun h => ?_, fun h => ?_⟩
  · simp [withDatabase, h]
  · simp [withDatabase, h]

/-- Witness for C1 at the spec's concrete example: a handler throwing
`Error("boom")` under a successful connect. -/
theorem C1_witness :
    withDatabase (.ok ()) (fun _ => (.error ⟨"boom"⟩ : Except JsError Nat)) =
      (.responded 500 ⟨false, "Database operation failed", "boom"⟩, true) :=
  (C1_withDatabase_error_path (fun _ => (.error ⟨"boom"⟩ : Except JsError Nat))
    ⟨"boom"⟩).2.1 rfl

/-- Claim C2: for every request path, if the path ends in one of the
static-asset extensions, `setCacheHeaders` sets `Cache-Control` to exactly
`public, max-age=3600`; otherwise if the path starts with `/api/` it sets
`Cache-Control` to exactly `public, max-age=300`; otherwise it sets no
header at all (the response is untouched); in every case it calls `next`
exactly once. -/
theorem C2_setCacheHeaders (path : String) (res : HttpRes) :
    (matchesStaticAsset path = true →
      ((setCacheHeaders path res).1.headers).lookup "Cache-Control" =
        some "public, max-age=3600") ∧
    (matchesStaticAsset path = false → pathIsApi path = true →
      ((setCacheHeaders path res).1.headers).lookup "Cache-Control" =
        some "public, max-age=300") ∧
    (matchesStaticAsset path = false → pathIsApi path = false →
      (setCacheHeaders path res).1 = res) ∧
    (setCacheHeaders path res).2 = 1 := by
  refine ⟨fun h1 => ?_, fun h1 h2 => ?_, fun h1 h2 => ?_, ?_⟩
  · simp only [setCacheHeaders, h1, if_true]
    exact lookup_set res "Cache-Control" "public, max-age=3600"
  · simp only [setCacheHeaders, h1, h2, if_false, if_true, Bool.false_eq_true]
    exact lookup_set res "Cache-Control" "public, max-age=300"
  · simp [setCacheHeaders, h1, h2]
  · unfold setCacheHeaders
    split
    · rfl
    · split <;> rfl

/-- Witness for C2 at concrete paths of each class. -/
theorem C2_witness :
    ((setCacheHeaders "/app.js" ⟨[]⟩).1.headers).lookup "Cache-Control" =
      some "public, max-age=3600" ∧
    ((setCacheHeaders "/api/users" ⟨[]⟩).1.headers).lookup "Cache-Control" =
      some "public, max-age=300" ∧
    (setCacheHeaders "/index.html" ⟨[]⟩).1 = ⟨[]⟩ :=
  ⟨(C2_setCacheHeaders "/app.js" ⟨[]⟩).1 (by decide),
   (C2_setCacheHeaders "/api/users" ⟨[]⟩).2.1 (by decide) (by decide),
   (C2_setCacheHeaders "/index.html" ⟨[]⟩).2.2.1 (by decide) (by decide)⟩

/-- Claim C3: `parseSize` follows the fixed unit table
`{b:1, kb:1024, mb:1024*1024, gb:1024*1024*1024}`:
`parseSize("10mb") = 10485760`, `parseSize("1kb") = 1024`, and every
string the regex rejects (such as `"bogus"`) parses to `0`. -/
theorem C3_parseSize :
    parseSize "10mb" = 10485760 ∧
    parseSize "1kb" = 1024 ∧
    parseSize "1b" = 1 ∧
    parseSize "1mb" = 1024 * 1024 ∧
    parseSize "1gb" = 1024 * 1024 * 1024 ∧
    sizeMatch "bogus" = none ∧
    parseSize "bogus" = 0 ∧
    (∀ s : String, sizeMatch s = none → parseSize s = 0) := by
  refine ⟨by decide, by decide, by decide, by decide, by decide, by decide, by decide,
    fun s h => ?_⟩
  simp [parseSize, h]

/-- Witness for C3's universally quantified clause at the concrete
rejected string `"bogus"`. -/
theorem C3_witness : parseSize "bogus" = 0 :=
  C3_parseSize.2.2.2.2.2.2.2 "bogus" (by decide)

/-- Claim C4: for every configured limit string, a request whose declared
content-length exceeds `parseSize(limit)` gets the 413 response
`{success: false, error: "Request entity too large", maxSize: <limit>}`
and `next` is not invoked; a request at or below the ceiling (or with no
numeric content-length) passes through with exactly one `next` call and
no response. -/
theorem C4_requestSizeLimiter (maxSize : String) (n : Int) :
    (n > (parseSize maxSize : Int) →
      requestSizeLimiter maxSize (some n) =
        ⟨some (413, ⟨false, "Request entity too large", maxSize⟩), 0⟩) ∧
    (n ≤ (parseSize maxSize : Int) →
      requestSizeLimiter maxSize (some n) = ⟨none, 1⟩) ∧
    requestSizeLimiter maxSize none = ⟨none, 1⟩ := by
  refine ⟨fun h => ?_, fun h => ?_, rfl⟩
  · have h0 : (0 : Int) ≤ (parseSize maxSize : Int) := Int.ofNat_nonneg _
    have hn : n ≠ 0 := by omega
    simp only [requestSizeLimiter]
    rw [if_pos ⟨hn, h⟩]
  · simp only [requestSizeLimiter]
    rw [if_neg]
    rintro ⟨-, h2⟩
    omega

/-- Witness for C4 at the 10mb limit: one byte over is rejected, the exact
ceiling passes. -/
theorem C4_witness :
    requestSizeLimiter "10mb" (some 10485761) =
      ⟨some (413, ⟨false, "Request entity too large", "10mb"⟩), 0⟩ ∧
    requestSizeLimiter "10mb" (some 10485760) = ⟨none, 1⟩ :=
  ⟨(C4_requestSizeLimiter "10mb" 10485761).1 (by decide),
   (C4_requestSizeLimiter "10mb" 10485760).2.1 (by decide)⟩

/-- Claim C5: for every finite input list, every batch size at least 1,
and every processor, `batchProcess` returns the processor applied to each
element in the original order (chunk results concatenated in chunk
order; within a chunk, `Promise.all` orders results by index regardless
of completion timing, which the chunk's `map` captures); in particular
`batchProcess([1,2,3,4,5], 2, x => x*2) = [2,4,6,8,10]`. -/
theorem C5_batchProcess {α β : Type} (items : List α) (bs : Nat) (p : α → β)
    (hbs : 1 ≤ bs) :
    batchProcess items bs p = items.map p ∧
    batchProcess [1, 2, 3, 4, 5] 2 (fun x => x * 2) = [2, 4, 6, 8, 10] := by
  constructor
  · unfold batchProcess
    rw [bpRun_results items bs p hbs items.length 0 [] (by omega)]
    simp
  · decide

/-- Witness for C5 at the spec's concrete example. -/
theorem C5_witness :
    batchProcess [1, 2, 3, 4, 5] 2 (fun x => x * 2) = [1, 2, 3, 4, 5].map (fun x => x * 2) :=
  (C5_batchProcess [1, 2, 3, 4, 5] 2 (fun x => x * 2) (by decide)).1

/-- Claim C6: `withTimeout` rejects with an error whose message carries the
configured bound (`Operation timed out after <timeoutMs>ms`) whenever the
timer fires before the operation settles, and resolves with the
operation's own value whenever the operation resolves first; in
particular an operation resolving at 50ms is rejected under a 10ms bound
and resolved under a 100ms bound. -/
theorem C6_withTimeout {α : Type} (opTime : Nat) (v : α) (timeoutMs : Nat) :
    (timeoutMs < opTime →
      withTimeout opTime v timeoutMs = .rejected (timeoutMessage timeoutMs)) ∧
    (opTime < timeoutMs → withTimeout opTime v timeoutMs = .resolved v) ∧
    withTimeout 50 v 10 = .rejected "Operation timed out after 10ms" ∧
    withTimeout 50 v 100 = .resolved v := by
  refine ⟨fun h => ?_, fun h => ?_, rfl, rfl⟩
  · simp [withTimeout, promiseRace, Nat.not_le.mpr h]
  · simp [withTimeout, promiseRace, Nat.le_of_lt h]

/-- Witness for C6 at the spec's concrete timings. -/
theorem C6_witness :
    withTimeout 50 (7 : Nat) 10 = .rejected (timeoutMessage 10) ∧
    withTimeout 50 (7 : Nat) 100 = .resolved 7 :=
  ⟨(C6_withTimeout 50 (7 : Nat) 10).1 (by decide),
   (C6_withTimeout 50 (7 : Nat) 100).2.1 (by decide)⟩

/-- Claim C7: `connectToDatabase()` returns the cached connection without
establishing a new one exactly when the cached handle is non-null and the
readyState is 1; otherwise a successful driver call stores a fresh handle
in the cache and registers the observers.  After a `disconnected` event
(whose registered observer nulls the cache) `isConnected()` is false and
the next `connectToDatabase()` establishes rather than reuses. -/
theorem C7_connect_cache (st : DbState) (driver : Except JsError Nat) (c : Nat) :
    ((∃ k, (connectToDatabase st driver).2 = ConnectOutcome.reusedCache k) ↔
      (st.cachedConnection ≠ none ∧ st.readyState = 1)) ∧
    (st.cachedConnection = some c → st.readyState = 1 →
      connectToDatabase st driver = (st, .reusedCache c)) ∧
    ((st.cachedConnection = none ∨ st.readyState ≠ 1) → driver = .ok c →
      connectToDatabase st driver =
        (⟨some c, 1, true⟩, .established c)) ∧
    (st.observersRegistered = true →
      (handleEvent st .disconnected).cachedConnection = none) ∧
    isConnected (handleEvent st .disconnected) = false ∧
    (driver = .ok c →
      (connectToDatabase (handleEvent st .disconnected) driver).2 =
        .established c) := by
  refine ⟨⟨?_, ?_⟩, fun h1 h2 => ?_, fun h1 h2 => ?_, fun h => ?_, ?_, fun h => ?_⟩
  · rintro ⟨k, hk⟩
    rcases hc : st.cachedConnection with _ | c1
    · rw [connectToDatabase, hc] at hk
      exact absurd hk (establish_ne_reused st driver k)
    · by_cases hr : st.readyState = 1
      · exact ⟨by simp [hc], hr⟩
      · simp [connectToDatabase, hc, hr] at hk
        exact absurd hk (establish_ne_reused st driver k)
  · rintro ⟨hne, hr⟩
    rcases hc : st.cachedConnection with _ | c1
    · exact absurd hc hne
    · exact ⟨c1, by simp [connectToDatabase, hc, hr]⟩
  · simp [connectToDatabase, h1, h2]
  · rcases h1 with h1 | h1
    · rw [connectToDatabase, h1, h2, establishConnection]
    · rcases hc : st.cachedConnection with _ | c1
      · rw [connectToDatabase, hc, h2, establishConnection]
      · simp [connectToDatabase, hc, h1, h2, establishConnection]
  · simp [handleEvent, driverEventState, observerAction, h]
  · by_cases h : st.observersRegistered <;>
      simp [handleEvent, driverEventState, observerAction, isConnected, h]
  · have hr : (handleEvent st .disconnected).readyState = 0 := by
      by_cases hreg : st.observersRegistered <;>
        simp [handleEvent, driverEventState, observerAction, hreg]
    rcases hc : (handleEvent st .disconnected).cachedConnection with _ | c1
    · rw [connectToDatabase, hc, h, establishConnection]
    · simp [connectToDatabase, hc, hr, h, establishConnection]

/-- Witness for C7 at concrete states: a warm cache is reused; after a
`disconnected` event the connection reads as down and a fresh handle is
established. -/
theorem C7_witness :
    connectToDatabase ⟨some 5, 1, true⟩ (Except.ok 6) =
      (⟨some 5, 1, true⟩, .reusedCache 5) ∧
    (handleEvent ⟨some 5, 1, true⟩ .disconnected).cachedConnection = none ∧
    isConnected (handleEvent ⟨some 5, 1, true⟩ .disconnected) = false ∧
    (connectToDatabase (handleEvent ⟨some 5, 1, true⟩ .disconnected)
      (Except.ok 6)).2 = .established 6 :=
  ⟨(C7_connect_cache ⟨some 5, 1, true⟩ (Except.ok 6) 5).2.1 rfl rfl,
   (C7_connect_cache ⟨some 5, 1, true⟩ (Except.ok 6) 5).2.2.2.1 rfl,
   (C7_connect_cache ⟨some 5, 1, true⟩ (Except.ok 6) 5).2.2.2.2.1,
   (C7_connect_cache ⟨some 5, 1, true⟩ (Except.ok 6) 6).2.2.2.2.2 rfl⟩

/-- Claim C8: whenever establishment fails (no reusable cache and the
driver call throws), `connectToDatabase()` resets the cached connection
to null before returning and re-signals the same failure to the caller:
the cache never keeps a handle from a failed attempt. -/
theorem C8_connect_failure (st : DbState) (e : JsError) :
    (st.cachedConnection = none ∨ st.readyState ≠ 1) →
    connectToDatabase st (.error e) =
      ({ st with cachedConnection := none }, .failed e) := by
  intro h
  rcases hc : st.cachedConnection with _ | c
  · rw [connectToDatabase, hc, establishConnection]
  · rcases h with h | h
    · rw [hc] at h
      exact absurd h (by simp)
    · simp [connectToDatabase, hc, h, establishConnection]

/-- Witness for C8 at a concrete stale-cache state with a failing driver. -/
theorem C8_witness :
    connectToDatabase ⟨some 3, 0, true⟩ (Except.error ⟨"down"⟩) =
      (⟨none, 0, true⟩, .failed ⟨"down"⟩) :=
  C8_connect_failure ⟨some 3, 0, true⟩ ⟨"down"⟩ (Or.inr (by decide))

/-- Counterexample to claim C9 as stated: with a cached connection present
and a teardown that throws, `closeConnection()` swallows the error but
leaves the cached handle set — the handle is not null afterwards,
contradicting "if a cached connection exists it ... clears the cache (the
cached handle is null afterwards) ... in all cases, including when the
underlying teardown throws".  In the source the `cachedConnection = null`
assignment sits after the awaited `mongoose.connection.close()`, so a
throwing teardown skips it. -/
theorem C9_counterexample :
    (⟨some 0, 1, true⟩ : DbState).cachedConnection ≠ none ∧
    closeConnection ⟨some 0, 1, true⟩ (Except.error ⟨"close failed"⟩) =
      .ok ⟨some 0, 1, true⟩ ∧
    (⟨some 0, 1, true⟩ : DbState).cachedConnection = some 0 :=
  ⟨by decide, rfl, rfl⟩

/-- Claim C9 as amended: `closeConnection()` never propagates an error
(every path returns normally); when no connection is cached it does
nothing; when a connection is cached and teardown succeeds it clears the
cache; but when teardown throws, the error is swallowed and logged and
the cached handle is left in place (not cleared). -/
theorem C9_closeConnection (st : DbState) (td : Except JsError Unit) (e : JsError) :
    (∃ st1, closeConnection st td = .ok st1) ∧
    (st.cachedConnection = none → closeConnection st td = .ok st) ∧
    (st.cachedConnection ≠ none → td = .ok () →
      ∃ st1, closeConnection st td = .ok st1 ∧ st1.cachedConnection = none) ∧
    (td = .error e → closeConnection st td = .ok st) := by
  refine ⟨?_, fun h => ?_, fun h1 h2 => ?_, fun h => ?_⟩
  · rcases hc : st.cachedConnection with _ | c
    · exact ⟨st, by simp [closeConnection, hc]⟩
    · rcases td with e1 | u
      · exact ⟨st, by simp [closeConnection, hc]⟩
      · exact ⟨{ st with cachedConnection := none, readyState := 0 },
          by simp [closeConnection, hc]⟩
  · simp [closeConnection, h]
  · rcases hc : st.cachedConnection with _ | c
    · exact absurd hc h1
    · exact ⟨{ st with cachedConnection := none, readyState := 0 },
        by simp [closeConnection, hc, h2]⟩
  · rcases hc : st.cachedConnection with _ | c
    · simp [closeConnection, hc]
    · simp [closeConnection, hc, h]

/-- Witness for C9 (amended) at concrete states: a successful teardown
clears the cache; a throwing teardown returns normally with the cache
kept. -/
theorem C9_witness :
    (∃ st1, closeConnection ⟨some 2, 1, true⟩ (Except.ok ()) = .ok st1 ∧
      st1.cachedConnection = none) ∧
    closeConnection ⟨some 2, 1, true⟩ (Except.error ⟨"close failed"⟩) =
      .ok ⟨some 2, 1, true⟩ :=
  ⟨(C9_closeConnection ⟨some 2, 1, true⟩ (Except.ok ()) ⟨"x"⟩).2.2.1
      (by decide) rfl,
   (C9_closeConnection ⟨some 2, 1, true⟩ (Except.error ⟨"close failed"⟩)
      ⟨"close failed"⟩).2.2.2 rfl⟩

/-- Claim C10: for every finite input list and batch size at least 1 the
`batchProcess` loop terminates — each iteration advances the index by
exactly `batchSize`, and `items.length` iterations of fuel suffice to
falsify the loop guard — and the precondition is necessary: with batch
size 0 and a non-empty list the index stays at 0 and the guard
`i < items.length` holds after any number of iterations, so the source's
unguarded loop never exits. -/
theorem C10_batchProcess_termination {α β : Type} (items : List α) (bs : Nat)
    (p : α → β) (s : BPState β) (hbs : 1 ≤ bs) :
    (bpStep items bs p s).i = s.i + bs ∧
    items.length ≤ (bpRun items bs p items.length ⟨0, []⟩).i ∧
    (∀ fuel : Nat, items ≠ [] →
      (bpRun items 0 p fuel ⟨0, []⟩).i < items.length) := by
  refine ⟨rfl, ?_, fun fuel hne => ?_⟩
  · exact bpRun_exits items bs p hbs items.length 0 [] (by omega)
  · rw [bpRun_zero_stuck items p fuel []]
    exact List.length_pos.mpr hne

/-- Witness for C10 at a concrete list and batch size. -/
theorem C10_witness :
    (bpStep [1, 2, 3] 2 (fun x => x * 2) ⟨0, []⟩).i = 0 + 2 ∧
    ([1, 2, 3] : List Nat).length ≤
      (bpRun [1, 2, 3] 2 (fun x => x * 2) ([1, 2, 3] : List Nat).length ⟨0, []⟩).i ∧
    (bpRun [1, 2, 3] 0 (fun x => x * 2) 7 ⟨0, []⟩).i < ([1, 2, 3] : List Nat).length :=
  ⟨(C10_batchProcess_termination [1, 2, 3] 2 (fun x => x * 2) ⟨0, []⟩ (by decide)).1,
   (C10_batchProcess_termination [1, 2, 3] 2 (fun x => x * 2) ⟨0, []⟩ (by decide)).2.1,
   (C10_batchProcess_termination [1, 2, 3] 2 (fun x => x * 2) ⟨0, []⟩ (by decide)).2.2 7
     (by decide)⟩
